import Mathlib

/-!
Verification of the OPAM ML pipelines (`ml_models/expense_predictor.py`,
`ml_models/fraud_detector.py`, `ml_models/run_ml.py`) against their
natural-language specification.

The Python code is shallowly embedded: machine floats are modelled by `ℚ`
(and by `ℝ` where a square root is genuinely needed), pandas `NaN` cells by
`Option ℚ`, and fitted scikit-learn estimators by their prediction
functions.  Where a standard deviation is stored only to be compared or
carried around (never consumed numerically by a verified claim) it is
modelled by the corresponding variance, which has exactly the same
definedness and row-dependence but stays inside `ℚ`.
-/

/-! ## Generic list arithmetic (numpy/pandas helpers) -/

/-- Arithmetic mean of a list, `sum/len` (0 for the empty list, matching the
`0/0 = 0` convention of `ℚ`; every use site has a nonempty list). -/
def listMean (l : List ℚ) : ℚ := l.sum / l.length

/-- Sample variance (`ddof = 1`), the square of pandas' `.std()`.  It is only
ever stored in cells whose definedness the claims track; the `count < 2`
guard is applied at each use site. -/
def sampleVar (l : List ℚ) : ℚ :=
  (l.map (fun x => (x - listMean l) ^ 2)).sum / ((l.length : ℚ) - 1)

/-- Maximum of a list (numpy `.max()` of a nonempty array). -/
def listMax (l : List ℚ) : ℚ := l.foldr max (l.headD 0)

/-- Minimum of a list (numpy `.min()` of a nonempty array). -/
def listMin (l : List ℚ) : ℚ := l.foldr min (l.headD 0)

/-! ## Ensemble weights (`ExpensePredictor.__init__`) -/

/-- The ensemble weight table built by `ExpensePredictor.__init__`.  With
xgboost importable the five hand-tuned weights are used; otherwise the
constructor overwrites `gradient_boosting` with 0.35 and `random_forest`
with 0.30 and deletes the `xgboost` entry. -/
def ensemble_weights (hasXgboost : Bool) : List (String × ℚ) :=
  if hasXgboost then
    [("linear", 1/10), ("ridge", 3/20), ("random_forest", 1/4),
     ("gradient_boosting", 1/4), ("xgboost", 1/4)]
  else
    [("linear", 1/10), ("ridge", 3/20), ("random_forest", 3/10),
     ("gradient_boosting", 7/20)]

/-- Total mass of a weight map. -/
def weightsSum (w : List (String × ℚ)) : ℚ := (w.map Prod.snd).sum

/-! ## Feature standardization (`train_with_hyperparameter_tuning`) -/

/-- The statistics a fitted `StandardScaler` stores for one feature column.
`scale` is modelled by the fitted population variance (sklearn stores its
square root); which rows it is computed from is identical. -/
structure ScalerStats where
  mean : ℚ
  scale : ℚ
deriving DecidableEq

/-- Population variance (`ddof = 0`), numpy's default and the quantity whose
square root a `StandardScaler` keeps as `scale_`. -/
def popVar (l : List ℚ) : ℚ :=
  (l.map (fun x => (x - listMean l) ^ 2)).sum / l.length

/-- `StandardScaler.fit` on one feature column. -/
def scaler_fit (col : List ℚ) : ScalerStats :=
  { mean := listMean col, scale := popVar col }

/-- `int(len(X) * 0.8)`, the chronological 80% split point. -/
def split_idx (n : ℕ) : ℕ := 4 * n / 5

/-- The state produced by the head of `train_with_hyperparameter_tuning`
for one feature column: the scaler fitted by `fit_transform` and the
chronological train/test row split. -/
structure TrainSplit where
  scaler : ScalerStats
  trainRows : List ℚ
  testRows : List ℚ

/-- Lines 167–176 of `expense_predictor.py`: the scaler is fitted by
`self.scaler.fit_transform(X)` on the WHOLE column, and only afterwards are
the rows split `[:split_idx]` / `[split_idx:]`. -/
def train_split (col : List ℚ) : TrainSplit :=
  { scaler := scaler_fit col
    trainRows := col.take (split_idx col.length)
    testRows := col.drop (split_idx col.length) }

/-- Modelled from the spec's words ("statistics fit once on the training
split"): a scaler fitted on the first-80% chronological split only.  Kept
for comparison with `train_split`, which is the code's behaviour. -/
def spec_train_scaler (col : List ℚ) : ScalerStats :=
  scaler_fit (col.take (split_idx col.length))

/-- The scaler later reused at inference (`self.scaler.transform` in
`predict_next_month`) is the one stored by training. -/
def inference_scaler (tp : TrainSplit) : ScalerStats := tp.scaler

/-! ## Forecast feature engineering (`ExpensePredictor.engineer_features`) -/

/-- One calendar month present in the input, after the `groupby('year_month')`
aggregation: its month key (months since year 0: `year * 12 + (month - 1)`)
and the amounts of its transactions.  A month appears here only if it has at
least one transaction, exactly as a pandas group does. -/
structure MonthData where
  ym : ℕ
  amounts : List ℚ
deriving DecidableEq

/-- `monthly['total_amount']`: the month's summed amount. -/
def monthTotal (m : MonthData) : ℚ := m.amounts.sum

/-- The ordered series of monthly totals. -/
def totalsOf (input : List MonthData) : List ℚ := input.map monthTotal

/-- The trailing window `totals[t-w+1 .. t]` read by `.rolling(window=w)`. -/
def rollingWindow (totals : List ℚ) (t w : ℕ) : List ℚ :=
  (totals.drop (t + 1 - w)).take w

/-- A rolling statistic cell: pandas leaves the first `w - 1` cells `NaN`
(the window must be fully populated) and applies `f` afterwards. -/
def rollingOpt (f : List ℚ → ℚ) (totals : List ℚ) (t w : ℕ) : Option ℚ :=
  if w - 1 ≤ t then some (f (rollingWindow totals t w)) else none

/-- A lag cell `totals.shift(k)` at row `t`: `NaN` for the first `k` rows. -/
def lagOpt (totals : List ℚ) (t k : ℕ) : Option ℚ :=
  if k ≤ t then some (totals.getD (t - k) 0) else none

/-- `pct_change` at row `t ≥ 1`: `(total_t - total_{t-1}) / total_{t-1}`. -/
def growthAt (totals : List ℚ) (t : ℕ) : ℚ :=
  (totals.getD t 0 - totals.getD (t - 1) 0) / totals.getD (t - 1) 0

/-- The default month used by `getD` lookups (never reached in bounds). -/
def emptyMonth : MonthData := { ym := 0, amounts := [] }

/-- One row of the `monthly` dataframe right before `dropna()`.  Cells pandas
can leave `NaN` are `Option ℚ`; all other columns are always defined. -/
structure MonthlyRow where
  year_month : ℕ
  total_amount : ℚ
  avg_amount : ℚ
  transaction_count : ℕ
  std_amount : Option ℚ
  max_amount : ℚ
  min_amount : ℚ
  num_transactions : ℕ
  year : ℕ
  month : ℕ
  quarter : ℕ
  is_q4 : Bool
  is_year_start : Bool
  is_year_end : Bool
  lag_1 : Option ℚ
  lag_2 : Option ℚ
  lag_3 : Option ℚ
  lag_4 : Option ℚ
  lag_5 : Option ℚ
  lag_6 : Option ℚ
  rolling_mean_2 : Option ℚ
  rolling_std_2 : Option ℚ
  rolling_max_2 : Option ℚ
  rolling_min_2 : Option ℚ
  rolling_mean_3 : Option ℚ
  rolling_std_3 : Option ℚ
  rolling_max_3 : Option ℚ
  rolling_min_3 : Option ℚ
  rolling_mean_6 : Option ℚ
  rolling_std_6 : Option ℚ
  rolling_max_6 : Option ℚ
  rolling_min_6 : Option ℚ
  mom_growth : Option ℚ
  mom_growth_lag1 : Option ℚ
  avg_txn_lag1 : Option ℚ
  txn_count_lag1 : Option ℚ

/-- Row `t` of the `monthly` dataframe, as built by `engineer_features`
lines 99–138.  `std_amount` is pandas' per-month sample std, `NaN` when the
month has fewer than two transactions; rolling stds are sample stds of the
window (modelled, like every stored std, by the sample variance). -/
def buildRow (input : List MonthData) (t : ℕ) : MonthlyRow :=
  let m := input.getD t emptyMonth
  let tot := totalsOf input
  let mo := m.ym % 12 + 1
  { year_month := m.ym
    total_amount := monthTotal m
    avg_amount := listMean m.amounts
    transaction_count := m.amounts.length
    std_amount := if 2 ≤ m.amounts.length then some (sampleVar m.amounts) else none
    max_amount := listMax m.amounts
    min_amount := listMin m.amounts
    num_transactions := m.amounts.length
    year := m.ym / 12
    month := mo
    quarter := (mo - 1) / 3 + 1
    is_q4 := decide ((mo - 1) / 3 + 1 = 4)
    is_year_start := decide (mo ≤ 2)
    is_year_end := decide (11 ≤ mo)
    lag_1 := lagOpt tot t 1
    lag_2 := lagOpt tot t 2
    lag_3 := lagOpt tot t 3
    lag_4 := lagOpt tot t 4
    lag_5 := lagOpt tot t 5
    lag_6 := lagOpt tot t 6
    rolling_mean_2 := rollingOpt listMean tot t 2
    rolling_std_2 := rollingOpt sampleVar tot t 2
    rolling_max_2 := rollingOpt listMax tot t 2
    rolling_min_2 := rollingOpt listMin tot t 2
    rolling_mean_3 := rollingOpt listMean tot t 3
    rolling_std_3 := rollingOpt sampleVar tot t 3
    rolling_max_3 := rollingOpt listMax tot t 3
    rolling_min_3 := rollingOpt listMin tot t 3
    rolling_mean_6 := rollingOpt listMean tot t 6
    rolling_std_6 := rollingOpt sampleVar tot t 6
    rolling_max_6 := rollingOpt listMax tot t 6
    rolling_min_6 := rollingOpt listMin tot t 6
    mom_growth := if 1 ≤ t then some (growthAt tot t) else none
    mom_growth_lag1 := if 2 ≤ t then some (growthAt tot (t - 1)) else none
    avg_txn_lag1 :=
      if 1 ≤ t then some (listMean (input.getD (t - 1) emptyMonth).amounts) else none
    txn_count_lag1 :=
      if 1 ≤ t then some ((input.getD (t - 1) emptyMonth).amounts.length : ℚ) else none }

/-- `dropna()`: a row survives iff none of its cells is `NaN`. -/
def rowComplete (r : MonthlyRow) : Bool :=
  r.std_amount.isSome && r.lag_1.isSome && r.lag_2.isSome && r.lag_3.isSome &&
  r.lag_4.isSome && r.lag_5.isSome && r.lag_6.isSome &&
  r.rolling_mean_2.isSome && r.rolling_std_2.isSome && r.rolling_max_2.isSome &&
  r.rolling_min_2.isSome && r.rolling_mean_3.isSome && r.rolling_std_3.isSome &&
  r.rolling_max_3.isSome && r.rolling_min_3.isSome && r.rolling_mean_6.isSome &&
  r.rolling_std_6.isSome && r.rolling_max_6.isSome && r.rolling_min_6.isSome &&
  r.mom_growth.isSome && r.mom_growth_lag1.isSome && r.avg_txn_lag1.isSome &&
  r.txn_count_lag1.isSome

/-- `ExpensePredictor.engineer_features`: build every monthly row, then
`dropna()`. -/
def engineer_features (input : List MonthData) : List MonthlyRow :=
  ((List.range input.length).map (buildRow input)).filter rowComplete

/-! ## Fraud scoring (`FraudDetector.calculate_fraud_scores`) -/

/-- The per-transaction columns `calculate_fraud_scores` reads, as produced
upstream by `FraudDetector.engineer_features`. -/
structure TxnFeatures where
  amount_percentile : ℚ
  is_night : Bool
  is_weekend : Bool
  daily_txn_count : ℕ
  amount_zscore : ℚ
  rare_merchant : Bool
deriving DecidableEq

/-- A pandas 0/1 indicator column. -/
def b2q (b : Bool) : ℚ := if b then 1 else 0

/-- Line 260: the isolation-forest decision score `d` of one row, rescaled
against the batch of decision scores `ds` so that higher means more
suspicious: `100 - (d - min)/(max - min + 1e-10) * 100`. -/
def ml_anomaly_score (ds : List ℚ) (d : ℚ) : ℚ :=
  100 - (d - listMin ds) / (listMax ds - listMin ds + 1 / 10 ^ 10) * 100

/-- Line 265: `amount_percentile * 30`. -/
def amount_score (f : TxnFeatures) : ℚ := f.amount_percentile * 30

/-- Line 268: `is_night * 15 + is_weekend * 5`. -/
def time_score (f : TxnFeatures) : ℚ := b2q f.is_night * 15 + b2q f.is_weekend * 5

/-- Line 271: `min(daily_txn_count * 3, 15)`. -/
def velocity_score (f : TxnFeatures) : ℚ := min ((f.daily_txn_count : ℚ) * 3) 15

/-- Line 274: `min(|amount_zscore| * 5, 25)`. -/
def deviation_score (f : TxnFeatures) : ℚ := min (|f.amount_zscore| * 5) 25

/-- Line 277: `rare_merchant * 10`. -/
def merchant_score (f : TxnFeatures) : ℚ := b2q f.rare_merchant * 10

/-- Lines 280–287: the weighted fusion of the six sub-scores. -/
def fraud_raw (ml : ℚ) (f : TxnFeatures) : ℚ :=
  ml * (40 / 100) + amount_score f * (20 / 100) + time_score f * (10 / 100) +
    velocity_score f * (10 / 100) + deviation_score f * (15 / 100) +
    merchant_score f * (5 / 100)

/-- Line 290: `np.clip(x, 0, 100)`. -/
def clip100 (x : ℚ) : ℚ := min (max x 0) 100

/-- The four risk labels. -/
inductive RiskLevel
  | Low
  | Medium
  | High
  | Critical
deriving DecidableEq

/-- Lines 292–297: `pd.cut(score, bins=[0,25,50,75,100], labels=...)`.
`pd.cut` bins are right-closed and (without `include_lowest`) left-open, so
the intervals are (0,25], (25,50], (50,75], (75,100]; values outside every
bin — including exactly 0 — get no label (`NaN`). -/
def risk_level (s : ℚ) : Option RiskLevel :=
  if 0 < s ∧ s ≤ 25 then some .Low
  else if 25 < s ∧ s ≤ 50 then some .Medium
  else if 50 < s ∧ s ≤ 75 then some .High
  else if 75 < s ∧ s ≤ 100 then some .Critical
  else none

/-- The columns `calculate_fraud_scores` appends to one transaction row. -/
structure ScoredTxn where
  ml_anomaly_score : ℚ
  amount_score : ℚ
  time_score : ℚ
  velocity_score : ℚ
  deviation_score : ℚ
  merchant_score : ℚ
  fraud_score : ℚ
  risk_level : Option RiskLevel

/-- Scoring of one transaction given its rescaled ML anomaly score. -/
def score_row (ml : ℚ) (f : TxnFeatures) : ScoredTxn :=
  { ml_anomaly_score := ml
    amount_score := amount_score f
    time_score := time_score f
    velocity_score := velocity_score f
    deviation_score := deviation_score f
    merchant_score := merchant_score f
    fraud_score := clip100 (fraud_raw ml f)
    risk_level := risk_level (clip100 (fraud_raw ml f)) }

/-- pandas `rank(pct=True)` (default method `average`) of the amount at
index `i`, as computed upstream for `amount_percentile` on line 110 of
`fraud_detector.py`. -/
def rank_pct (amounts : List ℚ) (i : ℕ) : ℚ :=
  (((amounts.filter (fun x => decide (x < amounts.getD i 0))).length : ℚ) +
      (((amounts.filter (fun x => decide (x = amounts.getD i 0))).length : ℚ) + 1) / 2) /
    amounts.length

/-! ## Fitted-model state, persistence and prediction -/

/-- A fitted scikit-learn estimator, modelled by its (opaque, deterministic)
prediction function on a standardized feature vector. -/
structure ModelFn where
  predict : List ℚ → ℚ

/-- `StandardScaler.transform` with fitted per-column statistics.  (`scale`
models the stored spread statistic; the claims below only use that the same
fitted value is reused, never its numeric relation to the data.) -/
def scaler_transform (stats : List ScalerStats) (x : List ℚ) : List ℚ :=
  List.zipWith (fun s v => (v - s.mean) / s.scale) stats x

/-- The mutable state of an `ExpensePredictor` instance. -/
structure ExpensePredictorState where
  models : List (String × ModelFn)
  scaler : List ScalerStats
  feature_columns : List String
  ensemble_weights : List (String × ℚ)
  is_trained : Bool

/-- The bundle `ExpensePredictor.save_models` writes (lines 415–423). -/
structure ExpenseBundle where
  models : List (String × ModelFn)
  scaler : List ScalerStats
  feature_columns : List String
  ensemble_weights : List (String × ℚ)

/-- `ExpensePredictor.save_models`. -/
def save_models (s : ExpensePredictorState) : ExpenseBundle :=
  { models := s.models, scaler := s.scaler,
    feature_columns := s.feature_columns, ensemble_weights := s.ensemble_weights }

/-- `ExpensePredictor.load_models` into a fresh instance: restores the four
saved fields and sets `is_trained`. -/
def load_models (b : ExpenseBundle) : ExpensePredictorState :=
  { models := b.models, scaler := b.scaler, feature_columns := b.feature_columns,
    ensemble_weights := b.ensemble_weights, is_trained := true }

/-- `self.ensemble_weights.get(name, 0)`. -/
def lookupWeight (w : List (String × ℚ)) (n : String) : ℚ :=
  ((w.find? (fun p => p.1 == n)).map Prod.snd).getD 0

/-- Lines 351–353: every per-model prediction is clamped at zero. -/
def clamped_predictions (models : List (String × ModelFn)) (x : List ℚ) :
    List (String × ℚ) :=
  models.map (fun nm => (nm.1, max 0 (nm.2.predict x)))

/-- Lines 356–360: the weighted ensemble of the per-model predictions,
clamped at zero. -/
def ensemble_prediction (w : List (String × ℚ)) (preds : List (String × ℚ)) : ℚ :=
  max 0 ((preds.map (fun np => lookupWeight w np.1 * np.2)).sum)

/-- `ExpensePredictor.predict_next_month`, the prediction part: select the
stored feature columns from the last monthly row, standardize with the
stored scaler, predict with every stored model (clamped at zero) and fuse
with the stored ensemble weights.  `none` models the `ValueError` raised
when the instance is untrained. -/
def predict_next_month (s : ExpensePredictorState) (row : String → ℚ) :
    Option (List (String × ℚ) × ℚ) :=
  if s.is_trained then
    let x := scaler_transform s.scaler (s.feature_columns.map row)
    let preds := clamped_predictions s.models x
    some (preds, ensemble_prediction s.ensemble_weights preds)
  else none

/-- The mutable state of a `FraudDetector` instance. -/
structure FraudDetectorState where
  isolation_forest : Option ModelFn
  scaler : List ScalerStats
  label_encoders : List (String × List String)
  feature_columns : List String
  contamination : ℚ
  is_trained : Bool

/-- The bundle `FraudDetector.save_models` writes (lines 339–348). -/
structure FraudBundle where
  isolation_forest : Option ModelFn
  scaler : List ScalerStats
  label_encoders : List (String × List String)
  feature_columns : List String
  contamination : ℚ

/-- `FraudDetector.save_models`. -/
def fraud_save_models (s : FraudDetectorState) : FraudBundle :=
  { isolation_forest := s.isolation_forest, scaler := s.scaler,
    label_encoders := s.label_encoders, feature_columns := s.feature_columns,
    contamination := s.contamination }

/-- `FraudDetector.load_models` into a fresh instance. -/
def fraud_load_models (b : FraudBundle) : FraudDetectorState :=
  { isolation_forest := b.isolation_forest, scaler := b.scaler,
    label_encoders := b.label_encoders, feature_columns := b.feature_columns,
    contamination := b.contamination, is_trained := true }

/-- `FraudDetector.calculate_fraud_scores` over a batch: with a fitted
forest, standardize each row, take its decision score, rescale against the
batch and fuse; with no forest the ML sub-score is 0 (line 262). -/
def calculate_fraud_scores (s : FraudDetectorState) (X : List (List ℚ))
    (rows : List TxnFeatures) : List ScoredTxn :=
  match s.isolation_forest with
  | some forest =>
      let ds := X.map (fun x => forest.predict (scaler_transform s.scaler x))
      List.zipWith (fun d f => score_row (ml_anomaly_score ds d) f) ds rows
  | none => rows.map (score_row 0)

/-! ## Confidence and trend (`ExpensePredictor.predict_next_month`) -/

/-- `np.mean` over the real numbers. -/
noncomputable def npMeanR (l : List ℝ) : ℝ := l.sum / l.length

/-- `np.std` (population, `ddof = 0`); the one place a square root is
numerically consumed, hence over `ℝ`. -/
noncomputable def npStdR (l : List ℝ) : ℝ :=
  Real.sqrt ((l.map (fun x => (x - npMeanR l) ^ 2)).sum / l.length)

/-- Lines 362–367: the coefficient of variation of the individual model
predictions, guarded by `mean > 0` (100 otherwise), then
`max(0, min(100, 100 - cv))`. -/
noncomputable def confidence (preds : List ℝ) : ℝ :=
  max 0 (min 100
    (100 - if 0 < npMeanR preds then npStdR preds / npMeanR preds * 100 else 100))

/-- Modelled from the spec's words: `100 - 100 * std/mean` clamped to
`[0,100]`, defined as 0 outright when the mean prediction is 0.  Kept for
comparison with `confidence`, the code's formula. -/
noncomputable def spec_confidence (preds : List ℝ) : ℝ :=
  if npMeanR preds = 0 then 0
  else max 0 (min 100 (100 - 100 * npStdR preds / npMeanR preds))

/-- The trend labels of `predict_next_month`. -/
inductive Trend
  | increasing
  | decreasing
  | stable
  | insufficient_data
deriving DecidableEq

/-- `monthly_df['total_amount'].tail(3).mean()`. -/
def recent_avg (totals : List ℚ) : ℚ := listMean (totals.drop (totals.length - 3))

/-- `monthly_df['total_amount'].iloc[-6:-3].mean()` when at least six rows
exist, else the code's fallback `recent_avg`. -/
def older_avg (totals : List ℚ) : ℚ :=
  if 6 ≤ totals.length then listMean ((totals.drop (totals.length - 6)).take 3)
  else recent_avg totals

/-- Lines 369–380: the trend label from the monthly total series. -/
def determine_trend (totals : List ℚ) : Trend :=
  if 3 ≤ totals.length then
    if recent_avg totals > older_avg totals * (11 / 10) then .increasing
    else if recent_avg totals < older_avg totals * (9 / 10) then .decreasing
    else .stable
  else .insufficient_data

/-! ## Orchestration gates (`run_ml.py`) -/

/-- A pipeline outcome at the orchestration boundary: either the success
payload (elided) or the structured `{'status':'error','message':...}`. -/
inductive PipelineResult
  | success
  | error (msg : String)
deriving DecidableEq

/-- The insufficient-data gating of `run_ml.run_expense_prediction`
(lines 31–64): fewer than 10 transactions errors first, then fewer than 3
post-feature-engineering monthly rows. -/
def run_expense_prediction (input : List MonthData) : PipelineResult :=
  if (input.map (fun m => m.amounts.length)).sum < 10 then
    .error "Need at least 10 transactions for prediction"
  else if (engineer_features input).length < 3 then
    .error "Need at least 3 months of data"
  else .success

/-- The insufficient-data gating of `run_ml.run_fraud_detection`
(lines 67–95) over the raw transaction amounts. -/
def run_fraud_detection (txns : List ℚ) : PipelineResult :=
  if txns.length < 10 then
    .error "Need at least 10 transactions for fraud detection"
  else .success

/-- Ten months with two transactions each: 20 transactions in total and
exactly 4 post-feature-engineering rows. -/
def exMonths10 : List MonthData :=
  [⟨0, [1, 1]⟩, ⟨1, [1, 1]⟩, ⟨2, [1, 1]⟩, ⟨3, [1, 1]⟩, ⟨4, [1, 1]⟩,
   ⟨5, [1, 1]⟩, ⟨6, [1, 1]⟩, ⟨7, [1, 1]⟩, ⟨8, [1, 1]⟩, ⟨9, [1, 1]⟩]

/-- An 8-month series whose last month has a single transaction. -/
def exMonthsBad : List MonthData :=
  [⟨0, [1, 1]⟩, ⟨1, [1, 1]⟩, ⟨2, [1, 1]⟩, ⟨3, [1, 1]⟩,
   ⟨4, [1, 1]⟩, ⟨5, [1, 1]⟩, ⟨6, [1, 1]⟩, ⟨7, [5]⟩]

/-- An 8-month series with two transactions every month. -/
def exMonths8 : List MonthData :=
  [⟨0, [1, 1]⟩, ⟨1, [1, 1]⟩, ⟨2, [1, 1]⟩, ⟨3, [1, 1]⟩,
   ⟨4, [1, 1]⟩, ⟨5, [1, 1]⟩, ⟨6, [1, 1]⟩, ⟨7, [1, 1]⟩]

/-- A concrete engineered transaction row. -/
def exTxn : TxnFeatures :=
  { amount_percentile := 1/2, is_night := true, is_weekend := false,
    daily_txn_count := 1, amount_zscore := 0, rare_merchant := false }

/-- A fresh, untrained `FraudDetector` (its `__init__` state). -/
def exFraudStateNone : FraudDetectorState :=
  { isolation_forest := none, scaler := [], label_encoders := [],
    feature_columns := [], contamination := 1/20, is_trained := false }

/-- A small trained `ExpensePredictor` state. -/
def exExpenseState : ExpensePredictorState :=
  { models := [("linear", ⟨fun v => v.sum⟩)], scaler := [⟨0, 1⟩],
    feature_columns := ["lag_1"], ensemble_weights := [("linear", 1)],
    is_trained := true }

/-- A small trained `FraudDetector` state. -/
def exFraudState : FraudDetectorState :=
  { isolation_forest := some ⟨fun v => v.sum⟩, scaler := [⟨0, 1⟩],
    label_encoders := [("category", ["Food", "Unknown"])],
    feature_columns := ["amount"], contamination := 1/20, is_trained := true }

/-! ### Claim C1 -/

/-- Claim C1 (code bug witness): with xgboost present the ensemble weights
sum to 1, but when xgboost is unavailable the redistributed table sums to
9/10, not 1: only 0.15 of the deleted 0.25 is added back (0.25→0.30 and
0.25→0.35).  All weights are nonetheless non-negative. -/
theorem ensemble_weights_sum_bug :
    weightsSum (ensemble_weights true) = 1 ∧
    weightsSum (ensemble_weights false) = 9/10 ∧
    (∀ p ∈ ensemble_weights false, 0 ≤ p.2) ∧ (9/10 : ℚ) ≠ 1 := by
  refine ⟨by norm_num [ensemble_weights, weightsSum],
          by norm_num [ensemble_weights, weightsSum], ?_, by norm_num⟩
  intro p hp
  fin_cases hp <;> norm_num

/-! ### Claim C2 -/

/-- An `if`-guarded cell is defined exactly when its guard holds. -/
theorem isSome_ite (c : Prop) [Decidable c] (x : ℚ) :
    (if c then some x else none).isSome = decide c := by
  by_cases h : c <;> simp [h]

/-- A pre-`dropna` row survives iff it has full six-month history and its
month has at least two transactions (otherwise `std_amount` is `NaN`). -/
theorem rowComplete_iff (input : List MonthData) (t : ℕ) :
    rowComplete (buildRow input t) = true ↔
      6 ≤ t ∧ 2 ≤ (input.getD t emptyMonth).amounts.length := by
  simp only [rowComplete, buildRow, lagOpt, rollingOpt, isSome_ite,
    Bool.and_eq_true, decide_eq_true_eq]
  omega

/-- Filtering after a map counts the elements whose image passes. -/
theorem length_filter_map {α β : Type} (f : α → β) (p : β → Bool) (l : List α) :
    ((l.map f).filter p).length = (l.filter (fun a => p (f a))).length := by
  induction l with
  | nil => rfl
  | cons a l ih => by_cases h : p (f a) <;> simp [List.filter_cons, h, ih]

/-- `range N` contains `N - k` indices that are at least `k`. -/
theorem length_range_filter_le (k N : ℕ) :
    ((List.range N).filter (fun t => decide (k ≤ t))).length = N - k := by
  induction N with
  | zero => simp
  | succ n ih =>
    rw [List.range_succ, List.filter_append, List.length_append, ih]
    by_cases h : k ≤ n <;> simp [h] <;> omega

/-- Claim C2 (counterexample): on an 8-month series whose last month has a
single transaction, `engineer_features` keeps 1 row, not
`max(0, N - 6) = 2`: the claimed exact row count is false. -/
theorem engineer_features_count_cex :
    (engineer_features exMonthsBad).length = 1 ∧ exMonthsBad.length - 6 = 2 ∧
      (1 : ℕ) ≠ 2 := by
  refine ⟨by decide, by decide, by decide⟩

/-- Claim C2 (amended): provided every month of the series has at least two
transactions (so no per-month sample std is `NaN`), `engineer_features`
returns exactly `max(0, N - 6)` monthly rows — `ℕ` subtraction is truncated
— and every retained row has no undefined cell. -/
theorem engineer_features_count (input : List MonthData)
    (h : ∀ m ∈ input, 2 ≤ m.amounts.length) :
    (engineer_features input).length = input.length - 6 ∧
      ∀ r ∈ engineer_features input, rowComplete r = true := by
  constructor
  · rw [engineer_features, length_filter_map]
    have hcongr : ∀ t ∈ List.range input.length,
        rowComplete (buildRow input t) = decide (6 ≤ t) := by
      intro t ht
      rw [List.mem_range] at ht
      have hc : 2 ≤ (input.getD t emptyMonth).amounts.length := by
        apply h
        rw [List.getD_eq_getElem?_getD, List.getElem?_eq_getElem ht, Option.getD_some]
        exact List.getElem_mem ht
      by_cases h6 : 6 ≤ t
      · rw [decide_eq_true h6, (rowComplete_iff input t).mpr ⟨h6, hc⟩]
      · rw [decide_eq_false h6]
        rw [← Bool.not_eq_true, rowComplete_iff]
        tauto
    rw [List.filter_congr hcongr, length_range_filter_le]
  · intro r hr
    exact List.of_mem_filter hr

/-- Claim C2 (witness): an 8-month series with two transactions every month
has the hypothesis and yields exactly 2 retained rows, all fully defined. -/
theorem engineer_features_count_witness :
    (∀ m ∈ exMonths8, 2 ≤ m.amounts.length) ∧
      ((engineer_features exMonths8).length = exMonths8.length - 6 ∧
        ∀ r ∈ engineer_features exMonths8, rowComplete r = true) :=
  ⟨by decide, engineer_features_count exMonths8 (by decide)⟩

/-! ### Claim C3 -/

/-- Claim C3 (counterexample): on the concrete 5-row feature column
`[0,0,0,0,100]` the scaler fitted by `train_with_hyperparameter_tuning` has
mean 20 — computed from all five rows — while the first-80% training split
has mean 0; changing only the test-split row changes the fitted statistic,
so a statistic is computed from rows of the last-20% test split. -/
theorem scaler_fit_uses_test_rows_cex :
    (train_split [0, 0, 0, 0, 100]).scaler.mean = 20 ∧
    (spec_train_scaler [0, 0, 0, 0, 100]).mean = 0 ∧
    (train_split [0, 0, 0, 0, 100]).trainRows = (train_split [0, 0, 0, 0, 0]).trainRows ∧
    (train_split [0, 0, 0, 0, 100]).scaler.mean ≠ (train_split [0, 0, 0, 0, 0]).scaler.mean := by
  refine ⟨?_, ?_, ?_, ?_⟩ <;>
    norm_num [train_split, spec_train_scaler, scaler_fit, listMean, split_idx]

/-- Claim C3 (amended): the standardization statistics are fit once, but on
the FULL feature matrix — the concatenation of the chronological train and
test splits — before the 80/20 split; that single fitted scaler is the one
reused unchanged for the held-out split and at inference. -/
theorem scaler_fit_full_matrix (col : List ℚ) :
    (train_split col).scaler
        = scaler_fit ((train_split col).trainRows ++ (train_split col).testRows) ∧
      inference_scaler (train_split col) = (train_split col).scaler := by
  constructor
  · simp [train_split, List.take_append_drop]
  · rfl

/-! ### Claim C4 -/

/-- Every element produced by `zipWith` is an image of the function. -/
theorem eq_of_mem_zipWith {α β γ : Type} (f : α → β → γ) (l : List α)
    (l2 : List β) (c : γ) (h : c ∈ List.zipWith f l l2) : ∃ a b, c = f a b := by
  induction l generalizing l2 with
  | nil => simp at h
  | cons a l ih =>
    cases l2 with
    | nil => simp at h
    | cons b l2 =>
      rw [List.zipWith_cons_cons, List.mem_cons] at h
      rcases h with h | h
      · exact ⟨a, b, h⟩
      · exact ih l2 h

/-- Claim C4: the ensemble forecast of `predict_next_month` is clamped at
zero, hence non-negative for arbitrary finite inputs, and every fused fraud
score produced by `calculate_fraud_scores` is clipped to `[0, 100]`. -/
theorem forecast_nonneg_fraud_clipped :
    (∀ (w preds : List (String × ℚ)), 0 ≤ ensemble_prediction w preds) ∧
      ∀ (s : FraudDetectorState) (X : List (List ℚ)) (rows : List TxnFeatures),
        ∀ r ∈ calculate_fraud_scores s X rows,
          0 ≤ r.fraud_score ∧ r.fraud_score ≤ 100 := by
  have hrow : ∀ (ml : ℚ) (f : TxnFeatures),
      0 ≤ (score_row ml f).fraud_score ∧ (score_row ml f).fraud_score ≤ 100 := by
    intro ml f
    refine ⟨le_min (le_max_right _ 0) (by norm_num), min_le_right _ _⟩
  refine ⟨fun w preds => le_max_left 0 _, fun s X rows r hr => ?_⟩
  unfold calculate_fraud_scores at hr
  cases hforest : s.isolation_forest with
  | some forest =>
    rw [hforest] at hr
    obtain ⟨d, f, rfl⟩ := eq_of_mem_zipWith _ _ _ _ hr
    exact hrow _ f
  | none =>
    rw [hforest] at hr
    obtain ⟨f, _, rfl⟩ := List.mem_map.mp hr
    exact hrow 0 f

/-- Claim C4 (witness): the bounds instantiated on a concrete weight map,
prediction list and scored transaction. -/
theorem forecast_nonneg_fraud_clipped_witness :
    0 ≤ ensemble_prediction [("linear", 1)] [("linear", 5)] ∧
      (score_row 0 exTxn ∈ calculate_fraud_scores exFraudStateNone [] [exTxn] ∧
        0 ≤ (score_row 0 exTxn).fraud_score ∧ (score_row 0 exTxn).fraud_score ≤ 100) := by
  have hm : score_row 0 exTxn ∈ calculate_fraud_scores exFraudStateNone [] [exTxn] := by
    simp [calculate_fraud_scores, exFraudStateNone]
  exact ⟨forecast_nonneg_fraud_clipped.1 _ _,
    hm, forecast_nonneg_fraud_clipped.2 exFraudStateNone [] [exTxn] _ hm⟩

/-! ### Claim C5 -/

/-- Claim C5 (counterexample): `pd.cut` bins are right-closed, so the fused
score 25 is labelled `Low`, not `Medium` as the claimed half-open bins
require, and the score 0 — inside the claimed `[0, 25)` bin — receives no
label at all. -/
theorem risk_level_bins_cex :
    risk_level 25 = some RiskLevel.Low ∧ risk_level 25 ≠ some RiskLevel.Medium ∧
      risk_level 0 = none := by
  have h25 : risk_level 25 = some RiskLevel.Low := by norm_num [risk_level]
  refine ⟨h25, ?_, by norm_num [risk_level]⟩
  rw [h25]
  decide

/-- Claim C5 (amended): the risk label follows left-open, right-closed bins:
`Low` on (0,25], `Medium` on (25,50], `High` on (50,75], `Critical` on
(75,100]; a score ≤ 0 (in particular exactly 0) or above 100 receives no
label. -/
theorem risk_level_bins (s : ℚ) :
    (risk_level s = some RiskLevel.Low ↔ 0 < s ∧ s ≤ 25) ∧
    (risk_level s = some RiskLevel.Medium ↔ 25 < s ∧ s ≤ 50) ∧
    (risk_level s = some RiskLevel.High ↔ 50 < s ∧ s ≤ 75) ∧
    (risk_level s = some RiskLevel.Critical ↔ 75 < s ∧ s ≤ 100) ∧
    (risk_level s = none ↔ s ≤ 0 ∨ 100 < s) := by
  unfold risk_level
  split_ifs with h1 h2 h3 h4
  · obtain ⟨ha, hb⟩ := h1
    refine ⟨⟨fun _ => ⟨ha, hb⟩, fun _ => rfl⟩, ?_, ?_, ?_, ?_⟩
    · exact ⟨fun h => by simp at h, fun hc => absurd hc.1 (by linarith)⟩
    · exact ⟨fun h => by simp at h, fun hc => absurd hc.1 (by linarith)⟩
    · exact ⟨fun h => by simp at h, fun hc => absurd hc.1 (by linarith)⟩
    · exact ⟨fun h => by simp at h,
        fun hc => absurd hc (not_or.mpr ⟨by linarith, by linarith⟩)⟩
  · obtain ⟨ha, hb⟩ := h2
    refine ⟨?_, ⟨fun _ => ⟨ha, hb⟩, fun _ => rfl⟩, ?_, ?_, ?_⟩
    · exact ⟨fun h => by simp at h, fun hc => absurd hc.2 (by linarith)⟩
    · exact ⟨fun h => by simp at h, fun hc => absurd hc.1 (by linarith)⟩
    · exact ⟨fun h => by simp at h, fun hc => absurd hc.1 (by linarith)⟩
    · exact ⟨fun h => by simp at h,
        fun hc => absurd hc (not_or.mpr ⟨by linarith, by linarith⟩)⟩
  · obtain ⟨ha, hb⟩ := h3
    refine ⟨?_, ?_, ⟨fun _ => ⟨ha, hb⟩, fun _ => rfl⟩, ?_, ?_⟩
    · exact ⟨fun h => by simp at h, fun hc => absurd hc.2 (by linarith)⟩
    · exact ⟨fun h => by simp at h, fun hc => absurd hc.2 (by linarith)⟩
    · exact ⟨fun h => by simp at h, fun hc => absurd hc.1 (by linarith)⟩
    · exact ⟨fun h => by simp at h,
        fun hc => absurd hc (not_or.mpr ⟨by linarith, by linarith⟩)⟩
  · obtain ⟨ha, hb⟩ := h4
    refine ⟨?_, ?_, ?_, ⟨fun _ => ⟨ha, hb⟩, fun _ => rfl⟩, ?_⟩
    · exact ⟨fun h => by simp at h, fun hc => absurd hc.2 (by linarith)⟩
    · exact ⟨fun h => by simp at h, fun hc => absurd hc.2 (by linarith)⟩
    · exact ⟨fun h => by simp at h, fun hc => absurd hc.2 (by linarith)⟩
    · exact ⟨fun h => by simp at h,
        fun hc => absurd hc (not_or.mpr ⟨by linarith, by linarith⟩)⟩
  · refine ⟨?_, ?_, ?_, ?_, ⟨fun _ => ?_, fun _ => rfl⟩⟩
    · exact ⟨fun h => by simp at h, fun hc => absurd hc h1⟩
    · exact ⟨fun h => by simp at h, fun hc => absurd hc h2⟩
    · exact ⟨fun h => by simp at h, fun hc => absurd hc h3⟩
    · exact ⟨fun h => by simp at h, fun hc => absurd hc h4⟩
    · rcases le_or_lt s 0 with a | a
      · exact Or.inl a
      · right
        by_contra hc
        push_neg at hc
        have t1 : 25 < s := by by_contra t; push_neg at t; exact h1 ⟨a, t⟩
        have t2 : 50 < s := by by_contra t; push_neg at t; exact h2 ⟨t1, t⟩
        have t3 : 75 < s := by by_contra t; push_neg at t; exact h3 ⟨t2, t⟩
        exact h4 ⟨t3, hc⟩

/-! ### Claim C6 -/

/-- Claim C6 (counterexample): ten months of two transactions each pass both
gates of `run_expense_prediction` — 20 transactions and 4 engineered rows —
even though only 4 < 6 months of post-feature-engineering data exist, so no
insufficient-data error is produced where the claim requires one (the code's
month threshold is 3, not 6). -/
theorem run_expense_gate_cex :
    run_expense_prediction exMonths10 = PipelineResult.success ∧
      (engineer_features exMonths10).length = 4 ∧ (4 : ℕ) < 6 := by
  refine ⟨by decide, by decide, by decide⟩

/-- Claim C6 (amended): at the orchestration boundary the forecast pipeline
returns a structured error (status + message) unless at least 10 raw
transactions and at least 3 post-feature-engineering monthly rows are
available — the month threshold is 3, not the claimed 6 — and the fraud
pipeline does so unless at least 10 transactions are available; with those
minimums met neither insufficient-data error is produced. -/
theorem pipeline_gates (input : List MonthData) (txns : List ℚ) :
    (run_expense_prediction input = PipelineResult.success ↔
      10 ≤ (input.map (fun m => m.amounts.length)).sum ∧
        3 ≤ (engineer_features input).length) ∧
    (run_fraud_detection txns = PipelineResult.success ↔ 10 ≤ txns.length) := by
  constructor
  · unfold run_expense_prediction
    split_ifs with hgate1 hgate2 <;> simp <;> omega
  · unfold run_fraud_detection
    split_ifs with hgate <;> simp <;> omega

/-! ### Claim C7 -/

/-- Claim C7: the confidence of `predict_next_month` equals the spec's
`100 - 100 * std/mean` clamped to `[0, 100]` whenever the individual model
predictions are non-negative (as they are after the per-model clamping),
and equals 0 — not a division fault — when their mean is 0. -/
theorem confidence_matches_spec (preds : List ℝ) (h : ∀ p ∈ preds, 0 ≤ p) :
    confidence preds = spec_confidence preds ∧
      (npMeanR preds = 0 → confidence preds = 0) := by
  have hm : 0 ≤ npMeanR preds :=
    div_nonneg (List.sum_nonneg h) (Nat.cast_nonneg _)
  have hzero : npMeanR preds = 0 → confidence preds = 0 := by
    intro h0
    unfold confidence
    rw [if_neg (by rw [h0]; exact lt_irrefl 0)]
    norm_num
  refine ⟨?_, hzero⟩
  rcases eq_or_lt_of_le hm with heq | hpos
  · rw [hzero heq.symm]
    unfold spec_confidence
    rw [if_pos heq.symm]
  · unfold confidence spec_confidence
    rw [if_pos hpos, if_neg (ne_of_gt hpos)]
    ring_nf

/-- Claim C7 (witness): the equivalence instantiated on the concrete
non-negative prediction list `[1, 2, 3]`. -/
theorem confidence_matches_spec_witness :
    (∀ p ∈ ([1, 2, 3] : List ℝ), 0 ≤ p) ∧
      (confidence [1, 2, 3] = spec_confidence [1, 2, 3] ∧
        (npMeanR [1, 2, 3] = 0 → confidence [1, 2, 3] = 0)) := by
  have h : ∀ p ∈ ([1, 2, 3] : List ℝ), 0 ≤ p := by
    intro p hp
    fin_cases hp <;> norm_num
  exact ⟨h, confidence_matches_spec _ h⟩

/-! ### Claim C8 -/

/-- The mean of a nonempty list of positive rationals is positive. -/
theorem listMean_pos {l : List ℚ} (hne : l ≠ []) (h : ∀ x ∈ l, 0 < x) :
    0 < listMean l := by
  have hlen : 0 < (l.length : ℚ) := by
    exact_mod_cast List.length_pos.mpr hne
  exact div_pos (List.sum_pos l h hne) hlen

/-- Claim C8: with fewer than 3 monthly rows the trend is
`insufficient_data`; with at least 6 rows of positive monthly totals the
label is `increasing` iff the mean of the last 3 totals exceeds 1.10 times
the mean of the 3 before them, `decreasing` iff it is below 0.90 times that
mean, and `stable` exactly otherwise. -/
theorem determine_trend_spec (totals : List ℚ) (hpos : ∀ x ∈ totals, 0 < x) :
    (totals.length < 3 → determine_trend totals = Trend.insufficient_data) ∧
    (6 ≤ totals.length →
      ((determine_trend totals = Trend.increasing ↔
          recent_avg totals > older_avg totals * (11 / 10)) ∧
       (determine_trend totals = Trend.decreasing ↔
          recent_avg totals < older_avg totals * (9 / 10)) ∧
       (determine_trend totals = Trend.stable ↔
          ¬recent_avg totals > older_avg totals * (11 / 10) ∧
            ¬recent_avg totals < older_avg totals * (9 / 10)))) := by
  constructor
  · intro hlt
    unfold determine_trend
    rw [if_neg (by omega)]
  · intro h6
    have holder : 0 < older_avg totals := by
      unfold older_avg
      rw [if_pos h6]
      apply listMean_pos
      · apply List.length_pos.mp
        rw [List.length_take, List.length_drop]
        omega
      · intro x hx
        exact hpos x (List.mem_of_mem_drop (List.mem_of_mem_take hx))
    unfold determine_trend
    rw [if_pos (by omega : 3 ≤ totals.length)]
    split_ifs with hinc hdec
    · refine ⟨⟨fun _ => hinc, fun _ => rfl⟩, ?_, ?_⟩
      · exact ⟨fun h => by simp at h, fun hc => absurd hc (by push_neg; nlinarith)⟩
      · exact ⟨fun h => by simp at h, fun hc => absurd hinc hc.1⟩
    · refine ⟨?_, ⟨fun _ => hdec, fun _ => rfl⟩, ?_⟩
      · exact ⟨fun h => by simp at h, fun hc => absurd hc hinc⟩
      · exact ⟨fun h => by simp at h, fun hc => absurd hdec hc.2⟩
    · refine ⟨?_, ?_, ⟨fun _ => ⟨hinc, hdec⟩, fun _ => rfl⟩⟩
      · exact ⟨fun h => by simp at h, fun hc => absurd hc hinc⟩
      · exact ⟨fun h => by simp at h, fun hc => absurd hc hdec⟩

/-- Claim C8 (witness): the characterization instantiated on a concrete
six-month series of positive totals. -/
theorem determine_trend_spec_witness :
    (∀ x ∈ ([1, 1, 1, 1, 1, 2] : List ℚ), 0 < x) ∧
      (([1, 1, 1, 1, 1, 2] : List ℚ).length < 3 →
        determine_trend [1, 1, 1, 1, 1, 2] = Trend.insufficient_data) ∧
      (6 ≤ ([1, 1, 1, 1, 1, 2] : List ℚ).length →
        ((determine_trend [1, 1, 1, 1, 1, 2] = Trend.increasing ↔
            recent_avg [1, 1, 1, 1, 1, 2] > older_avg [1, 1, 1, 1, 1, 2] * (11 / 10)) ∧
         (determine_trend [1, 1, 1, 1, 1, 2] = Trend.decreasing ↔
            recent_avg [1, 1, 1, 1, 1, 2] < older_avg [1, 1, 1, 1, 1, 2] * (9 / 10)) ∧
         (determine_trend [1, 1, 1, 1, 1, 2] = Trend.stable ↔
            ¬recent_avg [1, 1, 1, 1, 1, 2] > older_avg [1, 1, 1, 1, 1, 2] * (11 / 10) ∧
              ¬recent_avg [1, 1, 1, 1, 1, 2] < older_avg [1, 1, 1, 1, 1, 2] * (9 / 10)))) := by
  have h : ∀ x ∈ ([1, 1, 1, 1, 1, 2] : List ℚ), 0 < x := by
    intro x hx
    fin_cases hx <;> norm_num
  exact ⟨h, determine_trend_spec [1, 1, 1, 1, 1, 2] h⟩

/-! ### Claim C9 -/

/-- Claim C9: saving a trained predictor state and loading it back into a
fresh instance leaves every field that prediction reads intact, so the
reloaded instance produces exactly the same predictions — in particular
within any floating tolerance — for both the forecast and the fraud
pipeline (the fraud scorer needs no trained flag: it branches on the stored
forest itself). -/
theorem save_load_roundtrip (es : ExpensePredictorState) (fs : FraudDetectorState)
    (row : String → ℚ) (X : List (List ℚ)) (rows : List TxnFeatures)
    (h : es.is_trained = true) :
    predict_next_month (load_models (save_models es)) row = predict_next_month es row ∧
      calculate_fraud_scores (fraud_load_models (fraud_save_models fs)) X rows =
        calculate_fraud_scores fs X rows := by
  constructor
  · unfold predict_next_month load_models save_models
    rw [h]
  · rfl

/-- Claim C9 (witness): the round trip instantiated on small concrete
trained states, a concrete feature row and a concrete scoring batch. -/
theorem save_load_roundtrip_witness :
    exExpenseState.is_trained = true ∧
      (predict_next_month (load_models (save_models exExpenseState)) (fun _ => 3) =
          predict_next_month exExpenseState (fun _ => 3) ∧
        calculate_fraud_scores (fraud_load_models (fraud_save_models exFraudState))
            [[2]] [exTxn] =
          calculate_fraud_scores exFraudState [[2]] [exTxn]) :=
  ⟨rfl, save_load_roundtrip exExpenseState exFraudState (fun _ => 3) [[2]] [exTxn] rfl⟩

/-! ### Claim C10 -/

/-- A foldr-minimum is below every member of the list. -/
theorem foldr_min_le (i : ℚ) : ∀ (l : List ℚ) (a : ℚ), a ∈ l → l.foldr min i ≤ a := by
  intro l
  induction l with
  | nil => intro a h; cases h
  | cons b l ih =>
    intro a h
    rcases List.mem_cons.mp h with rfl | h
    · exact min_le_left _ _
    · exact le_trans (min_le_right _ _) (ih a h)

/-- A foldr-maximum is above every member of the list. -/
theorem foldr_le_max (i : ℚ) : ∀ (l : List ℚ) (a : ℚ), a ∈ l → a ≤ l.foldr max i := by
  intro l
  induction l with
  | nil => intro a h; cases h
  | cons b l ih =>
    intro a h
    rcases List.mem_cons.mp h with rfl | h
    · exact le_max_left _ _
    · exact le_trans (ih a h) (le_max_right _ _)

/-- The rescaled ML anomaly score of a decision score belonging to the batch
lies in (0, 100]: the `1e-10` guard keeps the normalized offset below 1. -/
theorem ml_anomaly_score_bounds {ds : List ℚ} {d : ℚ} (h : d ∈ ds) :
    0 < ml_anomaly_score ds d ∧ ml_anomaly_score ds d ≤ 100 := by
  have h1 : listMin ds ≤ d := by unfold listMin; exact foldr_min_le _ ds d h
  have h2 : d ≤ listMax ds := by unfold listMax; exact foldr_le_max _ ds d h
  have heps : (0 : ℚ) < 1 / 10 ^ 10 := by norm_num
  have hden : (0 : ℚ) < listMax ds - listMin ds + 1 / 10 ^ 10 := by linarith
  constructor
  · unfold ml_anomaly_score
    have hq : (d - listMin ds) / (listMax ds - listMin ds + 1 / 10 ^ 10) < 1 := by
      rw [div_lt_one hden]
      linarith
    linarith
  · unfold ml_anomaly_score
    have hq : 0 ≤ (d - listMin ds) / (listMax ds - listMin ds + 1 / 10 ^ 10) :=
      div_nonneg (by linarith) hden.le
    linarith

/-- The strict-below count and the equal count of a pivot never overcount
the list. -/
theorem length_filter_lt_add_eq_le (a : ℚ) (l : List ℚ) :
    (l.filter (fun x => decide (x < a))).length +
      (l.filter (fun x => decide (x = a))).length ≤ l.length := by
  induction l with
  | nil => simp
  | cons b l ih =>
    by_cases h2 : b = a
    · subst h2
      simp only [List.filter_cons, decide_eq_true_eq, lt_irrefl, decide_False,
        Bool.false_eq_true, if_false, if_pos rfl, List.length_cons, decide_True,
        if_true]
      omega
    · by_cases h1 : b < a <;>
        simp only [List.filter_cons, decide_eq_true_eq, h1, h2, if_true, if_false,
          List.length_cons] <;>
        omega

/-- The upstream `amount_percentile` column of `calculate_fraud_scores` —
pandas `rank(pct=True)` of the amounts — lies in (0, 1], justifying the
percentile hypotheses of the cap theorem. -/
theorem rank_pct_mem_Ioc (amounts : List ℚ) (i : ℕ) (hi : i < amounts.length) :
    0 < rank_pct amounts i ∧ rank_pct amounts i ≤ 1 := by
  have ha : amounts.getD i 0 ∈ amounts := by
    rw [List.getD_eq_getElem?_getD, List.getElem?_eq_getElem hi, Option.getD_some]
    exact List.getElem_mem hi
  have hE1 : 1 ≤ (amounts.filter (fun x => decide (x = amounts.getD i 0))).length :=
    List.length_pos.mpr (List.ne_nil_of_mem (List.mem_filter.mpr ⟨ha, by simp⟩))
  have hLE := length_filter_lt_add_eq_le (amounts.getD i 0) amounts
  have hn : 0 < (amounts.length : ℚ) := by
    have : 0 < amounts.length := by omega
    exact_mod_cast this
  have hEq : (1 : ℚ) ≤ ((amounts.filter (fun x => decide (x = amounts.getD i 0))).length : ℚ) := by
    exact_mod_cast hE1
  have hLEq : ((amounts.filter (fun x => decide (x < amounts.getD i 0))).length : ℚ) +
      ((amounts.filter (fun x => decide (x = amounts.getD i 0))).length : ℚ) ≤
        (amounts.length : ℚ) := by
    exact_mod_cast hLE
  unfold rank_pct
  constructor
  · apply div_pos _ hn
    have hL0 : (0 : ℚ) ≤ ((amounts.filter (fun x => decide (x < amounts.getD i 0))).length : ℚ) :=
      Nat.cast_nonneg _
    linarith
  · rw [div_le_one hn]
    linarith

/-- Claim C10: for a decision score drawn from the scored batch and the
upstream percentile column (always in [0, 1]), the fused fraud score is at
most 215/4 = 53.75 — the weighted sum of the six sub-score caps — so the
upper clamp at 100 is the identity and the `Critical` label (score > 75) is
never assigned. -/
theorem fraud_score_cap (ds : List ℚ) (d : ℚ) (f : TxnFeatures)
    (hd : d ∈ ds) (hp0 : 0 ≤ f.amount_percentile) (hp1 : f.amount_percentile ≤ 1) :
    (score_row (ml_anomaly_score ds d) f).fraud_score
        = fraud_raw (ml_anomaly_score ds d) f ∧
      (score_row (ml_anomaly_score ds d) f).fraud_score ≤ 215 / 4 ∧
      (score_row (ml_anomaly_score ds d) f).risk_level ≠ some RiskLevel.Critical := by
  obtain ⟨hml0, hml100⟩ := ml_anomaly_score_bounds hd
  have hA : 0 ≤ amount_score f ∧ amount_score f ≤ 30 := by
    unfold amount_score
    constructor
    · exact mul_nonneg hp0 (by norm_num)
    · have := mul_le_mul_of_nonneg_right hp1 (by norm_num : (0 : ℚ) ≤ 30)
      linarith
  have hT : 0 ≤ time_score f ∧ time_score f ≤ 20 := by
    unfold time_score b2q
    split_ifs <;> norm_num
  have hV : 0 ≤ velocity_score f ∧ velocity_score f ≤ 15 := by
    unfold velocity_score
    exact ⟨le_min (mul_nonneg (Nat.cast_nonneg _) (by norm_num)) (by norm_num),
      min_le_right _ _⟩
  have hD : 0 ≤ deviation_score f ∧ deviation_score f ≤ 25 := by
    unfold deviation_score
    exact ⟨le_min (mul_nonneg (abs_nonneg _) (by norm_num)) (by norm_num),
      min_le_right _ _⟩
  have hM : 0 ≤ merchant_score f ∧ merchant_score f ≤ 10 := by
    unfold merchant_score b2q
    split_ifs <;> norm_num
  have hraw0 : 0 ≤ fraud_raw (ml_anomaly_score ds d) f := by
    unfold fraud_raw
    linarith [hA.1, hT.1, hV.1, hD.1, hM.1]
  have hraw1 : fraud_raw (ml_anomaly_score ds d) f ≤ 215 / 4 := by
    unfold fraud_raw
    linarith [hA.2, hT.2, hV.2, hD.2, hM.2]
  have hclip : clip100 (fraud_raw (ml_anomaly_score ds d) f)
      = fraud_raw (ml_anomaly_score ds d) f := by
    unfold clip100
    rw [max_eq_left hraw0, min_eq_left (by linarith)]
  refine ⟨hclip, by rw [show (score_row (ml_anomaly_score ds d) f).fraud_score
      = clip100 (fraud_raw (ml_anomaly_score ds d) f) from rfl, hclip]; exact hraw1, ?_⟩
  show risk_level (clip100 (fraud_raw (ml_anomaly_score ds d) f)) ≠ some RiskLevel.Critical
  rw [hclip]
  unfold risk_level
  split_ifs with hb1 hb2 hb3 hb4
  · simp
  · simp
  · simp
  · exact absurd hb4.1 (by linarith)
  · simp

/-- Claim C10 (witness): the cap instantiated on the decision-score batch
`[0, 1]`, the member score 0 (the most anomalous row, ML sub-score 100) and
a concrete transaction row with percentile 1/2. -/
theorem fraud_score_cap_witness :
    ((0 : ℚ) ∈ ([0, 1] : List ℚ) ∧ 0 ≤ exTxn.amount_percentile ∧
        exTxn.amount_percentile ≤ 1) ∧
      ((score_row (ml_anomaly_score [0, 1] 0) exTxn).fraud_score
          = fraud_raw (ml_anomaly_score [0, 1] 0) exTxn ∧
        (score_row (ml_anomaly_score [0, 1] 0) exTxn).fraud_score ≤ 215 / 4 ∧
        (score_row (ml_anomaly_score [0, 1] 0) exTxn).risk_level
          ≠ some RiskLevel.Critical) :=
  ⟨⟨List.mem_cons_self 0 [1], by norm_num [exTxn], by norm_num [exTxn]⟩,
    fraud_score_cap [0, 1] 0 exTxn (List.mem_cons_self 0 [1])
      (by norm_num [exTxn]) (by norm_num [exTxn])⟩
